import Mathlib

/-!
Verification of the synthetic customer population generator and its paired
data-quality validator (`src/data_generation/customer_generator.py` and
`src/data_generation/config.py`), as a shallow embedding.

Modelling conventions:
* Python floats are modelled as rationals (`ℚ`); Python `int(x)` is truncation
  toward zero (`pyInt`).
* The numpy random stream (`np.random.seed` / `randint` / `random` / `choice`
  / `shuffle`) and the Faker stream (`Faker.seed`, name/city/domain draws) are
  external library code.  They are modelled as explicit deterministic streams
  threaded through the computation (a linear congruential step), matching the
  only properties the repository's code relies on: draws are a pure function
  of the seeded state, `randint lo hi` lands in `[lo, hi)`, and `shuffle`
  returns a permutation of its input.
* `datetime.now().date()` is modelled as an explicit `today : ℤ` parameter
  (a day number); `timedelta(days = d)` subtracts `d` from it.
* A pandas `DataFrame` built from a list of records is modelled as a column
  list plus typed rows (`DF`); building it from the empty list yields no
  columns, and a column lookup on a missing column is a `KeyError`, mirrored
  with `Except`.
* Missing values (Python `None` / pandas `NaN`) are `Option.none`.
-/

namespace Customer360

/-! ## Configuration constants (`src/data_generation/config.py`) -/

/-- Customer segment definitions: ordered mapping segment name ↦ weight. -/
def SEGMENTS : List (String × ℚ) :=
  [("High-Value Travelers", 15/100),
   ("Stable Mid-Spenders", 40/100),
   ("Budget-Conscious", 25/100),
   ("Declining", 10/100),
   ("New & Growing", 10/100)]

/-- Card types. -/
def CARD_TYPES : List String := ["Standard", "Premium"]

/-- Employment statuses. -/
def EMPLOYMENT_STATUSES : List String :=
  ["Employed", "Self-Employed", "Retired", "Unemployed"]

/-- US states (50 states + DC). -/
def US_STATES : List String :=
  ["AL", "AK", "AZ", "AR", "CA", "CO", "CT", "DE", "FL", "GA",
   "HI", "ID", "IL", "IN", "IA", "KS", "KY", "LA", "ME", "MD",
   "MA", "MI", "MN", "MS", "MO", "MT", "NE", "NV", "NH", "NJ",
   "NM", "NY", "NC", "ND", "OH", "OK", "OR", "PA", "RI", "SC",
   "SD", "TN", "TX", "UT", "VT", "VA", "WA", "WV", "WI", "WY", "DC"]

/-- Minimum credit limit. -/
def MIN_CREDIT_LIMIT : ℤ := 5000

/-- Maximum credit limit. -/
def MAX_CREDIT_LIMIT : ℤ := 50000

/-- Credit limit quantization step. -/
def CREDIT_LIMIT_STEP : ℤ := 1000

/-- Minimum age. -/
def MIN_AGE : ℤ := 22

/-- Maximum age. -/
def MAX_AGE : ℤ := 75

/-- Account open date range: oldest account age in years. -/
def ACCOUNT_OPEN_MIN_YEARS_AGO : ℤ := 5

/-- Account open date range: youngest account age in years. -/
def ACCOUNT_OPEN_MAX_YEARS_AGO : ℤ := 2

/-- Decline types (for the Declining segment only). -/
def DECLINE_TYPES : List String := ["gradual", "sudden"]

/-- Share of declining customers with a gradual decline. -/
def GRADUAL_DECLINE_PERCENTAGE : ℚ := 70/100

/-! ## Python numeric helpers -/

/-- Python `int(q)` on a float/rational: truncation toward zero
(T-division of the reduced numerator by the denominator; equals `⌊q⌋` for
`q ≥ 0` and `⌈q⌉` for `q ≤ 0`, proved below). -/
def pyInt (q : ℚ) : ℤ := q.num.tdiv q.den

/-! ## Random stream models

`np.random.seed(seed)` initialises a process-wide stream; every numpy draw in
the generator advances it.  `Faker.seed(seed)` initialises the (separate)
Faker stream.  The library algorithms (Mersenne Twister, Faker's providers)
are external to this repository; each is modelled as a deterministic linear
congruential stream, which preserves exactly the properties the source code
relies on (determinism as a function of the seed, `randint` range bounds,
`shuffle` permuting its input). -/

/-- State of the numpy random stream. -/
structure RState where
  val : ℕ
deriving Repr, DecidableEq

/-- One step of the modelled numpy stream. -/
def rnext (r : RState) : ℕ × RState :=
  let v := (r.val * 1664525 + 1013904223) % 4294967296
  (v, ⟨v⟩)

/-- Modelled `np.random.seed(seed)`. -/
def npSeed (seed : ℕ) : RState := ⟨seed % 4294967296⟩

/-- Modelled `np.random.randint(lo, hi)`: uniform integer in `[lo, hi)`. -/
def randint (lo hi : ℤ) (r : RState) : ℤ × RState :=
  let p := rnext r
  (if lo < hi then lo + (p.1 : ℤ) % (hi - lo) else lo, p.2)

/-- Modelled `np.random.random()`: a rational in `[0, 1)`. -/
def nprandom (r : RState) : ℚ × RState :=
  let p := rnext r
  (((p.1 % 1000 : ℕ) : ℚ) / 1000, p.2)

/-- Modelled `np.random.choice(xs)`: one element of `xs`. -/
def npchoice (xs : List String) (r : RState) : String × RState :=
  let p := rnext r
  (xs.getD (p.1 % xs.length) "", p.2)

/-- Modelled `np.random.shuffle(xs)` (in-place Fisher–Yates in the library):
a seeded deterministic permutation of `xs`, modelled as a rotation by a
stream-drawn offset. -/
def npshuffle (xs : List α) (r : RState) : List α × RState :=
  let p := rnext r
  (xs.rotate (p.1 % (xs.length + 1)), p.2)

/-- State of the Faker stream. -/
structure FState where
  val : ℕ
deriving Repr, DecidableEq

/-- One step of the modelled Faker stream. -/
def fnext (f : FState) : ℕ × FState :=
  let v := (f.val * 22695477 + 1) % 4294967296
  (v, ⟨v⟩)

/-- Modelled `Faker.seed(seed)`. -/
def fakerSeed (seed : ℕ) : FState := ⟨seed % 4294967296⟩

/-- Modelled Faker provider pools (the library's pools are far larger; only
their existence matters to the repository's code). -/
def FIRST_NAME_POOL : List String := ["Alice", "Bob", "Carol", "David", "Emma"]

/-- Modelled Faker last-name pool. -/
def LAST_NAME_POOL : List String := ["Smith", "Johnson", "Lee", "Garcia", "Chen"]

/-- Modelled Faker free-email-domain pool. -/
def EMAIL_DOMAIN_POOL : List String := ["example.com", "mail.net", "inbox.org"]

/-- Modelled Faker city pool. -/
def CITY_POOL : List String := ["Springfield", "Riverton", "Lakeside"]

/-- One Faker draw from a pool. -/
def fpick (xs : List String) (f : FState) : String × FState :=
  let p := fnext f
  (xs.getD (p.1 % xs.length) "", p.2)

/-- Modelled `fake.first_name()`. -/
def fakeFirstName (f : FState) : String × FState := fpick FIRST_NAME_POOL f

/-- Modelled `fake.last_name()`. -/
def fakeLastName (f : FState) : String × FState := fpick LAST_NAME_POOL f

/-- Modelled `fake.free_email_domain()`. -/
def fakeFreeEmailDomain (f : FState) : String × FState := fpick EMAIL_DOMAIN_POOL f

/-- Modelled `fake.city()`. -/
def fakeCity (f : FState) : String × FState := fpick CITY_POOL f

/-! ## Decimal strings and identifiers -/

/-- Little-endian decimal digits of `k`, by explicit fuel so that the kernel
can evaluate it; agrees with `Nat.digits 10` (proved below). -/
def decDigitsAux (fuel k : ℕ) : List ℕ :=
  match fuel, k with
  | 0, _ => []
  | _, 0 => []
  | f + 1, k + 1 => ((k + 1) % 10) :: decDigitsAux f ((k + 1) / 10)

/-- Little-endian decimal digits of `k`. -/
def decDigits (k : ℕ) : List ℕ := decDigitsAux k k

/-- The character for one decimal digit. -/
def digitChar (d : ℕ) : Char :=
  if d = 0 then '0' else if d = 1 then '1' else if d = 2 then '2'
  else if d = 3 then '3' else if d = 4 then '4' else if d = 5 then '5'
  else if d = 6 then '6' else if d = 7 then '7' else if d = 8 then '8' else '9'

/-- Python `str(k)` for a natural number: most-significant-first decimal. -/
def pyStr (k : ℕ) : List Char :=
  if k = 0 then ['0'] else (decDigits k).reverse.map digitChar

/-- Python `str.zfill(w)`: left-pad with zeros to width at least `w`. -/
def zfillChars (w : ℕ) (cs : List Char) : List Char :=
  List.replicate (w - cs.length) '0' ++ cs

/-- The customer identifier for 1-based position `k`:
Python `f"CUST{str(k).zfill(8)}"`. -/
def custId (k : ℕ) : String :=
  String.mk ("CUST".toList ++ zfillChars 8 (pyStr k))

/-! ## Customer records and the generator
(`generate_customers`, `src/data_generation/customer_generator.py:33`) -/

/-- One row of the generated table. -/
structure CustomerRecord where
  customer_id : String
  first_name : String
  last_name : String
  email : String
  age : ℤ
  state : String
  city : String
  employment_status : String
  card_type : String
  credit_limit : ℤ
  account_open_date : ℤ
  customer_segment : String
  decline_type : Option String
deriving Repr, DecidableEq

/-- The body of the per-customer loop of `generate_customers`
(`customer_generator.py:91-141`): synthesize the record at 0-based position
`i` with segment label `segment`, threading the numpy and Faker streams in
the source's draw order. -/
def synthRecord (i : ℕ) (segment : String) (today : ℤ) (r : RState) (f : FState) :
    CustomerRecord × RState × FState :=
  let customer_id := custId (i + 1)
  let pf1 := fakeFirstName f
  let first_name := pf1.1
  let pf2 := fakeLastName pf1.2
  let last_name := pf2.1
  let pf3 := fakeFreeEmailDomain pf2.2
  let email := first_name.toLower ++ "." ++ last_name.toLower ++ "@" ++ pf3.1
  let pr1 := randint MIN_AGE (MAX_AGE + 1) r
  let age := pr1.1
  let pr2 := npchoice US_STATES pr1.2
  let pf4 := fakeCity pf3.2
  let pr3 := npchoice EMPLOYMENT_STATUSES pr2.2
  -- Premium cards: 30% of High-Value Travelers, everyone else gets Standard;
  -- the Bernoulli draw happens only for that segment (Python `and`
  -- short-circuits).
  let pcard :=
    if segment = "High-Value Travelers" then
      let px := nprandom pr3.2
      ((if px.1 < 30/100 then "Premium" else "Standard"), px.2)
    else ("Standard", pr3.2)
  let num_steps := (MAX_CREDIT_LIMIT - MIN_CREDIT_LIMIT) / CREDIT_LIMIT_STEP + 1
  let pr4 := randint 0 num_steps pcard.2
  let credit_limit := MIN_CREDIT_LIMIT + pr4.1 * CREDIT_LIMIT_STEP
  let days_ago_min := ACCOUNT_OPEN_MAX_YEARS_AGO * 365
  let days_ago_max := ACCOUNT_OPEN_MIN_YEARS_AGO * 365
  let pr5 := randint days_ago_min (days_ago_max + 1) pr4.2
  let account_open_date := today - pr5.1
  let pdecl :=
    if segment = "Declining" then
      let px := nprandom pr5.2
      (some (if px.1 < GRADUAL_DECLINE_PERCENTAGE then "gradual" else "sudden"), px.2)
    else (none, pr5.2)
  (⟨customer_id, first_name, last_name, email, age, pr2.1, pf4.1, pr3.1,
    pcard.1, credit_limit, account_open_date, segment, pdecl.1⟩,
   pdecl.2, pf4.2)

/-- Segment count allocation (`customer_generator.py:69-81`): iterate the
weights in declaration order; every segment except the last gets
`int(n * percentage)`, the last gets the remainder.  `total` is the running
`total_assigned`. -/
def allocateAux (n : ℤ) (total : ℤ) : List (String × ℚ) → List (String × ℤ)
  | [] => []
  | [p] => [(p.1, n - total)]
  | p :: q :: rest =>
      (p.1, pyInt ((n : ℚ) * p.2)) ::
        allocateAux n (total + pyInt ((n : ℚ) * p.2)) (q :: rest)

/-- Segment count allocation for population size `n`. -/
def allocate (n : ℤ) (ws : List (String × ℚ)) : List (String × ℤ) :=
  allocateAux n 0 ws

/-- The flat per-record segment label list (`customer_generator.py:84-86`):
each segment name repeated its allocated count of times, in declaration
order.  A non-positive count contributes nothing (`[x] * c` is empty for
`c <= 0`). -/
def segmentAssignments (n : ℤ) : List String :=
  ((allocate n SEGMENTS).map (fun p => List.replicate p.2.toNat p.1)).flatten

/-- The record synthesis loop (`customer_generator.py:91`):
`for i in range(n): segment = segment_assignments[i]; ...`.  `i` is the
current index, `k` the number of iterations left; an out-of-range index is
Python's `IndexError`, modelled as `none`. -/
def synthAll (shuffled : List String) (today : ℤ) :
    ℕ → ℕ → RState → FState → Option (List CustomerRecord)
  | _, 0, _, _ => some []
  | i, k + 1, r, f =>
      match shuffled[i]? with
      | none => none
      | some seg =>
          let t := synthRecord i seg today r f
          Option.map (t.1 :: ·) (synthAll shuffled today (i + 1) k t.2.1 t.2.2)

/-- `generate_customers(n, seed)` (`customer_generator.py:33-143`), up to the
final `pd.DataFrame(customers)` call: seed both streams, allocate segment
counts, build and shuffle the assignment list, then synthesize one record per
position.  `today` is the `datetime.now().date()` observed by the call. -/
def customersList (n : ℤ) (seed : ℕ) (today : ℤ) : Option (List CustomerRecord) :=
  let r0 := npSeed seed
  let f0 := fakerSeed seed
  let shuf := npshuffle (segmentAssignments n) r0
  synthAll shuf.1 today 0 n.toNat shuf.2 f0

/-! ## DataFrames (`pd.DataFrame`) -/

/-- One row of an arbitrary input table for the validator: every field may be
missing (pandas `NaN` / Python `None`). -/
structure Row where
  customer_id : Option String
  first_name : Option String
  last_name : Option String
  email : Option String
  age : Option ℤ
  state : Option String
  city : Option String
  employment_status : Option String
  card_type : Option String
  credit_limit : Option ℤ
  account_open_date : Option ℤ
  customer_segment : Option String
  decline_type : Option String
deriving Repr, DecidableEq

/-- A generated record viewed as an input row (all fields present except the
segment-conditional `decline_type`). -/
def CustomerRecord.toRow (c : CustomerRecord) : Row :=
  ⟨some c.customer_id, some c.first_name, some c.last_name, some c.email,
   some c.age, some c.state, some c.city, some c.employment_status,
   some c.card_type, some c.credit_limit, some c.account_open_date,
   some c.customer_segment, c.decline_type⟩

/-- The column labels of a table generated from a non-empty record list, in
the record-dict insertion order of `customer_generator.py:127-141`. -/
def allColumns : List String :=
  ["customer_id", "first_name", "last_name", "email", "age", "state", "city",
   "employment_status", "card_type", "credit_limit", "account_open_date",
   "customer_segment", "decline_type"]

/-- A pandas DataFrame: its column labels and its rows.  `pd.DataFrame(rs)`
infers the columns from the records; for the empty record list there are no
columns at all. -/
structure DF where
  cols : List String
  rows : List Row
deriving Repr, DecidableEq

/-- `pd.DataFrame(customers)` (`customer_generator.py:143`). -/
def DF.ofRecords (rs : List CustomerRecord) : DF :=
  ⟨if rs.isEmpty then [] else allColumns, rs.map CustomerRecord.toRow⟩

/-- The full `generate_customers(n, seed)` entry point, returning the
DataFrame. -/
def generate_customers (n : ℤ) (seed : ℕ) (today : ℤ) : Option DF :=
  (customersList n seed today).map DF.ofRecords

/-! ## Validator (`validate_customer_data`, `customer_generator.py:146-248`) -/

/-- A validator finding.  The source renders each finding as a message
string; the constructor arguments are exactly the values interpolated into
that message. -/
inductive VIssue where
  /-- `"Field '<field>' has <count> null values"` -/
  | nullField (field : String) (count : ℕ)
  /-- `"Found <count> duplicate customer_ids"` -/
  | duplicateIds (count : ℕ)
  /-- `"Found <count> customer_ids with invalid format"` -/
  | invalidIdFormat (count : ℕ)
  /-- `"Segment '<segment>' distribution <actual> deviates from target
  <expected> by <|actual - expected|>"` -/
  | segmentDeviation (segment : String) (actual expected : ℚ)
  /-- `"Found <count> emails with invalid format"` -/
  | invalidEmails (count : ℕ)
  /-- `"Found <count> invalid credit limits"` -/
  | invalidCreditLimits (count : ℕ)
  /-- `"Found <count> Declining customers without decline_type"` -/
  | decliningWithoutType (count : ℕ)
  /-- `"Found <count> non-Declining customers with decline_type set"` -/
  | nonDecliningWithType (count : ℕ)
deriving Repr, DecidableEq

/-- The statistics block (`customer_generator.py:190-241`).  Means over pandas
columns skip nulls; an empty column has no min/max/mean.  `value_counts`
breakdowns are modelled in first-occurrence order (the source sorts them by
frequency, which no property here depends on). -/
structure VStats where
  segment_distribution : List (String × ℚ)
  total_customers : ℕ
  unique_customer_ids : ℕ
  credit_limit_min : Option ℤ
  credit_limit_max : Option ℤ
  credit_limit_avg : Option ℚ
  card_type_distribution : List (String × ℕ)
  employment_distribution : List (String × ℕ)
deriving Repr, DecidableEq

/-- The validator's returned dictionary. -/
structure ValidationResult where
  is_valid : Bool
  errors : List VIssue
  warnings : List VIssue
  statistics : VStats
deriving Repr, DecidableEq

/-- The required-field list of `customer_generator.py:171-172`. -/
def required_fields : List String :=
  ["customer_id", "email", "state", "card_type", "credit_limit",
   "customer_segment", "first_name", "last_name"]

/-- Whether the named field is null in a row (`df[field].isnull()`). -/
def fieldIsNull (row : Row) (field : String) : Bool :=
  if field = "customer_id" then row.customer_id.isNone
  else if field = "email" then row.email.isNone
  else if field = "state" then row.state.isNone
  else if field = "card_type" then row.card_type.isNone
  else if field = "credit_limit" then row.credit_limit.isNone
  else if field = "customer_segment" then row.customer_segment.isNone
  else if field = "first_name" then row.first_name.isNone
  else if field = "last_name" then row.last_name.isNone
  else false

/-- The identifier pattern `r'^CUST\d{8}$'` (`customer_generator.py:185`):
the four characters `CUST` followed by exactly eight decimal digits. -/
def idFormatOk (s : String) : Bool :=
  (s.toList.take 4 == "CUST".toList) && (s.toList.length == 12) &&
    (s.toList.drop 4).all Char.isDigit

/-- The email pattern `r'^[^@]+@[^@]+\.[^@]+$'` (`customer_generator.py:204`):
exactly one `@`, a non-empty local part, and a domain containing a dot that
is neither its first nor its last character. -/
def emailOk (s : String) : Bool :=
  match s.toList.splitOn '@' with
  | [local_part, domain] =>
      (!local_part.isEmpty) && ((domain.drop 1).dropLast.contains '.')
  | _ => false

/-- Whether a credit limit value is counted by the range check
(`customer_generator.py:212-216`).  A null becomes pandas `NaN`, for which
`NaN < min` and `NaN > max` are false but `NaN % step != 0` is true, so a
null credit limit is counted as invalid. -/
def creditBad (v : Option ℤ) : Bool :=
  match v with
  | some c => (c < MIN_CREDIT_LIMIT) || (c > MAX_CREDIT_LIMIT) ||
      (c % CREDIT_LIMIT_STEP ≠ 0)
  | none => true

/-- Empirical share of segment `s`
(`df["customer_segment"].value_counts(normalize=True)` then `.get(s, 0)`,
`customer_generator.py:191-195`): `value_counts` drops nulls and normalizes
by the non-null count; a label absent from the table (including the empty
table, where the rational division by zero is zero) yields `0`. -/
def empiricalShare (rows : List Row) (s : String) : ℚ :=
  let segs := rows.filterMap (·.customer_segment)
  ((segs.count s : ℚ)) / (segs.length : ℚ)

/-- Duplicate count (`df["customer_id"].duplicated().sum()`): the number of
entries equal to an earlier entry; pandas treats two nulls as duplicates of
one another here. -/
def dupCount (l : List (Option String)) : ℕ := l.length - l.dedup.length

/-- A `value_counts()` breakdown (nulls dropped), in first-occurrence order. -/
def valueCounts (xs : List String) : List (String × ℕ) :=
  xs.dedup.map (fun s => (s, xs.count s))

/-- Minimum of a list of integers, if any. -/
def listMin (l : List ℤ) : Option ℤ :=
  l.foldl (fun a c => match a with | none => some c | some m => some (min m c)) none

/-- Maximum of a list of integers, if any. -/
def listMax (l : List ℤ) : Option ℤ :=
  l.foldl (fun a c => match a with | none => some c | some m => some (max m c)) none

/-- Null-check errors (`customer_generator.py:174-177`), in required-field
order. -/
def nullErrorsOf (rows : List Row) : List VIssue :=
  required_fields.filterMap (fun fld =>
    let c := (rows.filter (fun row => fieldIsNull row fld)).length
    if c > 0 then some (VIssue.nullField fld c) else none)

/-- Duplicate-identifier error (`customer_generator.py:180-182`). -/
def dupErrorsOf (rows : List Row) : List VIssue :=
  let d := dupCount (rows.map (·.customer_id))
  if d > 0 then [VIssue.duplicateIds d] else []

/-- Identifier-format error (`customer_generator.py:184-188`), defined for
tables whose identifiers are all non-null (otherwise the source raises
before producing it). -/
def formatErrorsOf (rows : List Row) : List VIssue :=
  let c := (((rows.map (·.customer_id)).filterMap id).filter
    (fun s => !idFormatOk s)).length
  if c > 0 then [VIssue.invalidIdFormat c] else []

/-- Segment-distribution warnings (`customer_generator.py:194-201`), in
configured-segment order. -/
def warningsOf (rows : List Row) : List VIssue :=
  SEGMENTS.filterMap (fun p =>
    if |empiricalShare rows p.1 - p.2| > 5/100 then
      some (VIssue.segmentDeviation p.1 (empiricalShare rows p.1) p.2)
    else none)

/-- Email-format error (`customer_generator.py:203-209`); only non-null
emails are checked. -/
def emailErrorsOf (rows : List Row) : List VIssue :=
  let c := ((rows.filterMap (·.email)).filter (fun e => !emailOk e)).length
  if c > 0 then [VIssue.invalidEmails c] else []

/-- Credit-limit range error (`customer_generator.py:211-218`). -/
def creditErrorsOf (rows : List Row) : List VIssue :=
  let c := (rows.filter (fun row => creditBad row.credit_limit)).length
  if c > 0 then [VIssue.invalidCreditLimits c] else []

/-- Missing decline type for Declining customers
(`customer_generator.py:221-226`). -/
def declNullErrorsOf (rows : List Row) : List VIssue :=
  let c := ((rows.filter (fun row => row.customer_segment == some "Declining")).filter
    (fun row => row.decline_type.isNone)).length
  if c > 0 then [VIssue.decliningWithoutType c] else []

/-- Decline type set on non-Declining customers
(`customer_generator.py:228-232`). -/
def declSetErrorsOf (rows : List Row) : List VIssue :=
  let c := ((rows.filter (fun row => !(row.customer_segment == some "Declining"))).filter
    (fun row => row.decline_type.isSome)).length
  if c > 0 then [VIssue.nonDecliningWithType c] else []

/-- The full error list, in the order the source appends
(`customer_generator.py:166-232`). -/
def errorsOf (rows : List Row) : List VIssue :=
  nullErrorsOf rows ++ dupErrorsOf rows ++ formatErrorsOf rows ++
    emailErrorsOf rows ++ creditErrorsOf rows ++ declNullErrorsOf rows ++
    declSetErrorsOf rows

/-- The statistics block (`customer_generator.py:190-241`). -/
def statsOf (rows : List Row) : VStats :=
  let credits := rows.filterMap (·.credit_limit)
  { segment_distribution :=
      (rows.filterMap (·.customer_segment)).dedup.map
        (fun s => (s, empiricalShare rows s))
    total_customers := rows.length
    unique_customer_ids := ((rows.map (·.customer_id)).filterMap id).dedup.length
    credit_limit_min := listMin credits
    credit_limit_max := listMax credits
    credit_limit_avg :=
      if credits.isEmpty then none
      else some ((credits.sum : ℚ) / (credits.length : ℚ))
    card_type_distribution := valueCounts (rows.filterMap (·.card_type))
    employment_distribution := valueCounts (rows.filterMap (·.employment_status)) }

/-- The body of `validate_customer_data` once all column lookups have
succeeded (`customer_generator.py:166-248`).  Each check only appends to the
error or warning list; the single exception path is the identifier format
check: `~df["customer_id"].str.match(...)` on a column containing a null
raises (the match mask holds `NaN`, and inverting an object-dtype mask with
`NaN` is a `TypeError`), which aborts the call and discards the errors
collected so far (the null-check and duplicate-check results are computed
before that line but only ever returned with the final report). -/
def validateRows (rows : List Row) : Except String ValidationResult :=
  if (rows.map (·.customer_id)).any Option.isNone then
    Except.error "TypeError: bad operand type for unary ~"
  else
    Except.ok
      { is_valid := (errorsOf rows).isEmpty
        errors := errorsOf rows
        warnings := warningsOf rows
        statistics := statsOf rows }

/-- The columns `validate_customer_data` looks up, in first-access order
(the `required_fields` loop at `customer_generator.py:174`, then
`decline_type` at line 224 and `employment_status` at line 241). -/
def accessedColumns : List String :=
  ["customer_id", "email", "state", "card_type", "credit_limit",
   "customer_segment", "first_name", "last_name", "decline_type",
   "employment_status"]

/-- `validate_customer_data(df)` (`customer_generator.py:146`): the first
lookup of a column the DataFrame does not have raises `KeyError`; otherwise
the row-level validation runs. -/
def validate_customer_data (df : DF) : Except String ValidationResult :=
  match accessedColumns.find? (fun c => !(df.cols.contains c)) with
  | some c => Except.error ("KeyError: " ++ c)
  | none => validateRows df.rows

/-! ## Statement helpers -/

/-- Decimal value of a digit string (used to invert `custId`). -/
def natOfChars (cs : List Char) : ℕ :=
  cs.foldl (fun a c => 10 * a + (c.toNat - 48)) 0

/-- A record with `account_open_date` scrubbed: what remains of a row once
the single field derived from the generation-time clock is ignored. -/
def eraseDate (c : CustomerRecord) : CustomerRecord :=
  { c with account_open_date := 0 }

/-- The per-record invariants established by one pass of the synthesis loop
body for 0-based position `i` and segment label `seg`. -/
def RecordProps (i : ℕ) (seg : String) (c : CustomerRecord) : Prop :=
  c.customer_id = custId (i + 1) ∧
  c.customer_segment = seg ∧
  MIN_AGE ≤ c.age ∧ c.age ≤ MAX_AGE ∧
  MIN_CREDIT_LIMIT ≤ c.credit_limit ∧ c.credit_limit ≤ MAX_CREDIT_LIMIT ∧
  c.credit_limit % CREDIT_LIMIT_STEP = 0 ∧
  (∃ k : ℤ, 0 ≤ k ∧ k < 46 ∧
    c.credit_limit = MIN_CREDIT_LIMIT + k * CREDIT_LIMIT_STEP) ∧
  (c.decline_type ≠ none ↔ seg = "Declining") ∧
  (∀ d, c.decline_type = some d → d ∈ DECLINE_TYPES)

/-- The shuffled per-record segment label sequence used by
`generate_customers(n, seed)`. -/
def shuffledOf (n : ℤ) (seed : ℕ) : List String :=
  (npshuffle (segmentAssignments n) (npSeed seed)).1

/-- The 46 valid credit limit values for min 5000, max 50000, step 1000. -/
def stepValues : List ℤ :=
  (List.range 46).map (fun k => MIN_CREDIT_LIMIT + (k : ℤ) * CREDIT_LIMIT_STEP)

/-- A placeholder record (used only to spell out concrete witnesses). -/
def dRec : CustomerRecord := ⟨"", "", "", "", 0, "", "", "", "", 0, 0, "", none⟩

/-! ## Lemmas: Python `int` truncation -/

theorem pyInt_of_nonneg {q : ℚ} (h : 0 ≤ q) : pyInt q = ⌊q⌋ := by
  unfold pyInt
  rw [Rat.floor_def]
  exact Int.tdiv_eq_ediv (Rat.num_nonneg.mpr h) (by positivity)

theorem pyInt_of_nonpos {q : ℚ} (h : q ≤ 0) : pyInt q = ⌈q⌉ := by
  have hnum : 0 ≤ (-q).num := Rat.num_nonneg.mpr (by linarith)
  have hfl : ⌊-q⌋ = (-q).num.tdiv ((-q).den : ℤ) := by
    rw [Rat.floor_def, Int.tdiv_eq_ediv hnum (by positivity)]
  have hceil : ⌈q⌉ = -⌊-q⌋ := by
    rw [Int.floor_neg]
    ring
  rw [hceil, hfl, Rat.neg_num, Rat.neg_den, Int.neg_tdiv]
  unfold pyInt
  ring

theorem pyInt_nonneg {q : ℚ} (h : 0 ≤ q) : 0 ≤ pyInt q := by
  rw [pyInt_of_nonneg h]
  exact Int.floor_nonneg.mpr h

theorem pyInt_cast_le {q : ℚ} (h : 0 ≤ q) : (pyInt q : ℚ) ≤ q := by
  rw [pyInt_of_nonneg h]
  exact Int.floor_le q

theorem pyInt_nonpos {q : ℚ} (h : q ≤ 0) : pyInt q ≤ 0 := by
  rw [pyInt_of_nonpos h]
  exact Int.ceil_le.mpr (by exact_mod_cast h)

theorem le_pyInt_cast {q : ℚ} (h : q ≤ 0) : q ≤ (pyInt q : ℚ) := by
  rw [pyInt_of_nonpos h]
  exact Int.le_ceil q

/-! ## Lemmas: modelled random draws -/

theorem randint_bounds (lo hi : ℤ) (r : RState) (h : lo < hi) :
    lo ≤ (randint lo hi r).1 ∧ (randint lo hi r).1 < hi := by
  simp only [randint, if_pos h]
  have h1 : 0 ≤ ((rnext r).1 : ℤ) % (hi - lo) :=
    Int.emod_nonneg _ (by omega)
  have h2 : ((rnext r).1 : ℤ) % (hi - lo) < hi - lo :=
    Int.emod_lt_of_pos _ (by omega)
  omega

/-! ## Lemmas: decimal strings and identifiers -/

theorem decDigitsAux_eq : ∀ (fuel k : ℕ), k ≤ fuel →
    decDigitsAux fuel k = Nat.digits 10 k
  | 0, 0, _ => by simp [decDigitsAux]
  | 0, k + 1, h => absurd h (by omega)
  | f + 1, 0, _ => by simp [decDigitsAux]
  | f + 1, k + 1, h => by
    have hdiv : (k + 1) / 10 ≤ f := by
      have := Nat.div_lt_self (Nat.succ_pos k) (by norm_num : 1 < 10)
      omega
    have hrec : decDigitsAux (f + 1) (k + 1) =
        ((k + 1) % 10) :: decDigitsAux f ((k + 1) / 10) := rfl
    rw [hrec, decDigitsAux_eq f ((k + 1) / 10) hdiv,
      Nat.digits_def' (by norm_num : 1 < 10) (Nat.succ_pos k)]

theorem decDigits_eq (k : ℕ) : decDigits k = Nat.digits 10 k :=
  decDigitsAux_eq k k le_rfl

theorem digitChar_toNat {d : ℕ} (h : d < 10) : (digitChar d).toNat - 48 = d := by
  interval_cases d <;> decide

theorem digitChar_isDigit {d : ℕ} (h : d < 10) : (digitChar d).isDigit = true := by
  interval_cases d <;> decide

theorem foldl_decimal_reverse (L : List ℕ) (acc : ℕ) :
    L.reverse.foldl (fun a d => 10 * a + d) acc =
      acc * 10 ^ L.length + Nat.ofDigits 10 L := by
  induction L generalizing acc with
  | nil => simp
  | cons d t ih =>
    rw [List.reverse_cons, List.foldl_append, ih]
    simp only [List.foldl_cons, List.foldl_nil, Nat.ofDigits_cons, List.length_cons]
    ring

theorem foldl_map_digitChar (L : List ℕ) (acc : ℕ) (h : ∀ d ∈ L, d < 10) :
    (L.map digitChar).foldl (fun a c => 10 * a + (c.toNat - 48)) acc =
      L.foldl (fun a d => 10 * a + d) acc := by
  induction L generalizing acc with
  | nil => rfl
  | cons d t ih =>
    simp only [List.map_cons, List.foldl_cons]
    rw [digitChar_toNat (h d (by simp))]
    exact ih _ (fun x hx => h x (by simp [hx]))

theorem natOfChars_zfill (w : ℕ) (cs : List Char) :
    natOfChars (zfillChars w cs) = natOfChars cs := by
  unfold zfillChars natOfChars
  generalize w - cs.length = m
  induction m with
  | zero => rfl
  | succ k ih =>
    rw [List.replicate_succ, List.cons_append, List.foldl_cons]
    have hz : 10 * 0 + ('0'.toNat - 48) = 0 := by decide
    rw [hz]
    exact ih

theorem natOfChars_pyStr (k : ℕ) : natOfChars (pyStr k) = k := by
  by_cases hk : k = 0
  · subst hk; decide
  · unfold pyStr natOfChars
    rw [if_neg hk, List.map_reverse, ← List.map_reverse]
    rw [foldl_map_digitChar _ 0 (fun d hd => by
      rw [List.mem_reverse, decDigits_eq] at hd
      exact Nat.digits_lt_base (by norm_num) hd)]
    rw [foldl_decimal_reverse, decDigits_eq, Nat.ofDigits_digits]
    simp

theorem custId_data (k : ℕ) :
    (custId k).toList = "CUST".toList ++ zfillChars 8 (pyStr k) := rfl

theorem custId_inj : Function.Injective custId := by
  intro a b h
  have hd : "CUST".toList ++ zfillChars 8 (pyStr a) =
      "CUST".toList ++ zfillChars 8 (pyStr b) := by
    rw [← custId_data, ← custId_data, h]
  have h2 := List.append_cancel_left hd
  have h3 := congrArg natOfChars h2
  rwa [natOfChars_zfill, natOfChars_zfill, natOfChars_pyStr,
    natOfChars_pyStr] at h3

theorem pyStr_length_le {k : ℕ} (h2 : k ≤ 99999999) :
    (pyStr k).length ≤ 8 := by
  by_cases hk : k = 0
  · subst hk; decide
  · unfold pyStr
    rw [if_neg hk, List.length_map, List.length_reverse, decDigits_eq,
      Nat.digits_len 10 k (by norm_num) hk]
    have hlog : Nat.log 10 k < 8 :=
      (Nat.lt_pow_iff_log_lt (by norm_num) hk).mp (by omega)
    omega

theorem pyStr_all_digits (k : ℕ) : ∀ c ∈ pyStr k, c.isDigit = true := by
  intro c hc
  by_cases hk : k = 0
  · subst hk
    simp [pyStr] at hc
    subst hc; decide
  · simp only [pyStr, if_neg hk, List.mem_map] at hc
    obtain ⟨d, hd, rfl⟩ := hc
    rw [List.mem_reverse, decDigits_eq] at hd
    exact digitChar_isDigit (Nat.digits_lt_base (by norm_num) hd)

theorem zfillChars_length {cs : List Char} (h : cs.length ≤ 8) :
    (zfillChars 8 cs).length = 8 := by
  simp only [zfillChars, List.length_append, List.length_replicate]
  omega

theorem idFormatOk_custId {k : ℕ} (h2 : k ≤ 99999999) :
    idFormatOk (custId k) = true := by
  have hlen : (zfillChars 8 (pyStr k)).length = 8 :=
    zfillChars_length (pyStr_length_le h2)
  simp only [idFormatOk, custId_data, Bool.and_eq_true, beq_iff_eq,
    List.all_eq_true]
  refine ⟨⟨List.take_left' (by decide), ?_⟩, ?_⟩
  · simp only [List.length_append, hlen]
    decide
  · rw [List.drop_left' (by decide : ("CUST".toList).length = 4)]
    intro c hc
    simp only [zfillChars, List.mem_append, List.mem_replicate] at hc
    rcases hc with ⟨-, rfl⟩ | hc
    · decide
    · exact pyStr_all_digits k c hc

theorem pyStr_length_big : (pyStr 100000000).length = 9 := by
  unfold pyStr
  rw [if_neg (by norm_num), List.length_map, List.length_reverse, decDigits_eq]
  have h1 := Nat.digits_len 10 100000000 (by norm_num) (by norm_num)
  have h8 : Nat.log 10 100000000 = 8 := by
    rw [show (100000000 : ℕ) = 10 ^ 8 by norm_num]
    exact Nat.log_pow (by norm_num) 8
  omega

theorem idFormatOk_custId_big : idFormatOk (custId 100000000) = false := by
  have hlen : ((custId 100000000).toList).length = 13 := by
    rw [custId_data, List.length_append]
    simp only [zfillChars, List.length_append, List.length_replicate,
      pyStr_length_big]
    decide
  simp only [idFormatOk, hlen]
  decide

/-! ## Lemmas: segment allocation -/

theorem allocateAux_sum (n : ℤ) :
    ∀ (ws : List (String × ℚ)) (total : ℤ), ws ≠ [] →
      ((allocateAux n total ws).map Prod.snd).sum = n - total
  | [], _, h => absurd rfl h
  | [p], total, _ => by simp [allocateAux]
  | p :: q :: rest, total, _ => by
    have ih := allocateAux_sum n (q :: rest) (total + pyInt ((n : ℚ) * p.2))
      (by simp)
    simp only [allocateAux, List.map_cons, List.sum_cons, ih]
    ring

theorem allocate_sum (n : ℤ) (ws : List (String × ℚ)) (h : ws ≠ []) :
    ((allocate n ws).map Prod.snd).sum = n := by
  unfold allocate
  rw [allocateAux_sum n ws 0 h]
  ring

theorem allocateAux_get (n : ℤ) :
    ∀ (ws : List (String × ℚ)) (total : ℤ) (i : ℕ) (p : String × ℚ),
      i + 1 < ws.length → ws[i]? = some p →
      (allocateAux n total ws)[i]? = some (p.1, pyInt ((n : ℚ) * p.2))
  | [], _, i, p, h, _ => by simp at h
  | [q], _, i, p, h, _ => by simp at h
  | q :: q' :: rest, total, 0, p, _, hp => by
    simp only [List.getElem?_cons_zero, Option.some.injEq] at hp
    subst hp
    simp [allocateAux]
  | q :: q' :: rest, total, i + 1, p, h, hp => by
    simp only [List.getElem?_cons_succ] at hp
    have ih := allocateAux_get n (q' :: rest) (total + pyInt ((n : ℚ) * q.2))
      i p (by simp at h ⊢; omega) hp
    simpa [allocateAux] using ih

theorem allocateAux_names (n : ℤ) :
    ∀ (ws : List (String × ℚ)) (total : ℤ),
      (allocateAux n total ws).map Prod.fst = ws.map Prod.fst
  | [], _ => rfl
  | [p], _ => rfl
  | p :: q :: rest, total => by
    have ih := allocateAux_names n (q :: rest) (total + pyInt ((n : ℚ) * p.2))
    simp only [allocateAux, List.map_cons] at ih ⊢
    rw [ih]

theorem allocateAux_zero_last (n : ℤ) :
    ∀ (ws : List (String × ℚ)) (total : ℤ), ws ≠ [] → (∀ p ∈ ws, p.2 = 0) →
      ((allocateAux n total ws).map Prod.snd).getLast? = some (n - total)
  | [], _, h, _ => absurd rfl h
  | [p], total, _, _ => by simp [allocateAux]
  | p :: q :: rest, total, _, hz => by
    have hp0 : p.2 = 0 := hz p (by simp)
    have hpy : pyInt ((n : ℚ) * p.2) = 0 := by
      rw [hp0, mul_zero]
      rfl
    have ih := allocateAux_zero_last n (q :: rest)
      (total + pyInt ((n : ℚ) * p.2)) (by simp)
      (fun x hx => hz x (by simp [hx]))
    simp only [allocateAux, List.map_cons, List.getLast?_cons, ih]
    simp [hpy]

/-- The allocation for the configured segments, written out. -/
theorem allocate_SEGMENTS (n : ℤ) : allocate n SEGMENTS =
    [("High-Value Travelers", pyInt ((n : ℚ) * (15/100))),
     ("Stable Mid-Spenders", pyInt ((n : ℚ) * (40/100))),
     ("Budget-Conscious", pyInt ((n : ℚ) * (25/100))),
     ("Declining", pyInt ((n : ℚ) * (10/100))),
     ("New & Growing",
      n - (0 + pyInt ((n : ℚ) * (15/100)) + pyInt ((n : ℚ) * (40/100)) +
        pyInt ((n : ℚ) * (25/100)) + pyInt ((n : ℚ) * (10/100))))] := rfl

theorem counts_cast_le (n : ℤ) (hn : 0 ≤ n) :
    pyInt ((n : ℚ) * (15/100)) + pyInt ((n : ℚ) * (40/100)) +
      pyInt ((n : ℚ) * (25/100)) + pyInt ((n : ℚ) * (10/100)) ≤ n := by
  have hq : (0 : ℚ) ≤ (n : ℚ) := by exact_mod_cast hn
  have h1 := pyInt_cast_le (q := (n : ℚ) * (15/100)) (by positivity)
  have h2 := pyInt_cast_le (q := (n : ℚ) * (40/100)) (by positivity)
  have h3 := pyInt_cast_le (q := (n : ℚ) * (25/100)) (by positivity)
  have h4 := pyInt_cast_le (q := (n : ℚ) * (10/100)) (by positivity)
  have : ((pyInt ((n : ℚ) * (15/100)) + pyInt ((n : ℚ) * (40/100)) +
      pyInt ((n : ℚ) * (25/100)) + pyInt ((n : ℚ) * (10/100)) : ℤ) : ℚ) ≤
      (n : ℚ) := by
    push_cast
    linarith
  exact_mod_cast this

theorem counts_nonneg (n : ℤ) (hn : 0 ≤ n) :
    ∀ p ∈ allocate n SEGMENTS, 0 ≤ p.2 := by
  have hq : (0 : ℚ) ≤ (n : ℚ) := by exact_mod_cast hn
  have hle := counts_cast_le n hn
  intro p hp
  rw [allocate_SEGMENTS] at hp
  simp only [List.mem_cons, List.not_mem_nil, or_false] at hp
  rcases hp with rfl | rfl | rfl | rfl | rfl
  · exact pyInt_nonneg (by positivity)
  · exact pyInt_nonneg (by positivity)
  · exact pyInt_nonneg (by positivity)
  · exact pyInt_nonneg (by positivity)
  · simp only
    omega

theorem segmentAssignments_length (n : ℤ) (hn : 0 ≤ n) :
    (segmentAssignments n).length = n.toNat := by
  have hq : (0 : ℚ) ≤ (n : ℚ) := by exact_mod_cast hn
  have h1 : 0 ≤ pyInt ((n : ℚ) * (15/100)) := pyInt_nonneg (by positivity)
  have h2 : 0 ≤ pyInt ((n : ℚ) * (40/100)) := pyInt_nonneg (by positivity)
  have h3 : 0 ≤ pyInt ((n : ℚ) * (25/100)) := pyInt_nonneg (by positivity)
  have h4 : 0 ≤ pyInt ((n : ℚ) * (10/100)) := pyInt_nonneg (by positivity)
  have h5 := counts_cast_le n hn
  unfold segmentAssignments
  rw [allocate_SEGMENTS]
  simp only [List.length_flatten, List.map_cons, List.map_nil,
    List.length_replicate, List.sum_cons, List.sum_nil]
  omega

theorem segmentAssignments_nonpos (n : ℤ) (hn : n ≤ 0) :
    segmentAssignments n = [] := by
  have hq : (n : ℚ) ≤ 0 := by exact_mod_cast hn
  have g1 : pyInt ((n : ℚ) * (15/100)) ≤ 0 :=
    pyInt_nonpos (mul_nonpos_of_nonpos_of_nonneg hq (by norm_num))
  have g2 : pyInt ((n : ℚ) * (40/100)) ≤ 0 :=
    pyInt_nonpos (mul_nonpos_of_nonpos_of_nonneg hq (by norm_num))
  have g3 : pyInt ((n : ℚ) * (25/100)) ≤ 0 :=
    pyInt_nonpos (mul_nonpos_of_nonpos_of_nonneg hq (by norm_num))
  have g4 : pyInt ((n : ℚ) * (10/100)) ≤ 0 :=
    pyInt_nonpos (mul_nonpos_of_nonpos_of_nonneg hq (by norm_num))
  have hge : n ≤ pyInt ((n : ℚ) * (15/100)) + pyInt ((n : ℚ) * (40/100)) +
      pyInt ((n : ℚ) * (25/100)) + pyInt ((n : ℚ) * (10/100)) := by
    have l1 := le_pyInt_cast (q := (n : ℚ) * (15/100))
      (mul_nonpos_of_nonpos_of_nonneg hq (by norm_num))
    have l2 := le_pyInt_cast (q := (n : ℚ) * (40/100))
      (mul_nonpos_of_nonpos_of_nonneg hq (by norm_num))
    have l3 := le_pyInt_cast (q := (n : ℚ) * (25/100))
      (mul_nonpos_of_nonpos_of_nonneg hq (by norm_num))
    have l4 := le_pyInt_cast (q := (n : ℚ) * (10/100))
      (mul_nonpos_of_nonpos_of_nonneg hq (by norm_num))
    have : (n : ℚ) ≤ ((pyInt ((n : ℚ) * (15/100)) + pyInt ((n : ℚ) * (40/100)) +
        pyInt ((n : ℚ) * (25/100)) + pyInt ((n : ℚ) * (10/100)) : ℤ) : ℚ) := by
      push_cast
      linarith
    exact_mod_cast this
  unfold segmentAssignments
  rw [allocate_SEGMENTS]
  have t1 : (pyInt ((n : ℚ) * (15/100))).toNat = 0 := Int.toNat_of_nonpos g1
  have t2 : (pyInt ((n : ℚ) * (40/100))).toNat = 0 := Int.toNat_of_nonpos g2
  have t3 : (pyInt ((n : ℚ) * (25/100))).toNat = 0 := Int.toNat_of_nonpos g3
  have t4 : (pyInt ((n : ℚ) * (10/100))).toNat = 0 := Int.toNat_of_nonpos g4
  have t5 : (n - (0 + pyInt ((n : ℚ) * (15/100)) + pyInt ((n : ℚ) * (40/100)) +
      pyInt ((n : ℚ) * (25/100)) + pyInt ((n : ℚ) * (10/100)))).toNat = 0 :=
    Int.toNat_of_nonpos (by linarith)
  simp [t1, t2, t3, t4, t5]
  try linarith

theorem customersList_nonpos (n : ℤ) (hn : n ≤ 0) (seed : ℕ) (today : ℤ) :
    customersList n seed today = some [] := by
  have h0 : n.toNat = 0 := Int.toNat_of_nonpos hn
  simp [customersList, segmentAssignments_nonpos n hn, npshuffle,
    List.rotate_nil, h0, synthAll]

/-! ## Lemmas: the synthesis loop body -/

theorem synthRecord_credit (i : ℕ) (seg : String) (today : ℤ) (r : RState)
    (f : FState) :
    ∃ s, (synthRecord i seg today r f).1.credit_limit =
      MIN_CREDIT_LIMIT + (randint 0 46 s).1 * CREDIT_LIMIT_STEP :=
  ⟨_, rfl⟩

theorem synthRecord_decline_pos (i : ℕ) (seg : String) (today : ℤ) (r : RState)
    (f : FState) (h : seg = "Declining") :
    ∃ x : ℚ, (synthRecord i seg today r f).1.decline_type =
      some (if x < GRADUAL_DECLINE_PERCENTAGE then "gradual" else "sudden") := by
  subst h
  exact ⟨_, rfl⟩

theorem synthRecord_decline_neg (i : ℕ) (seg : String) (today : ℤ) (r : RState)
    (f : FState) (h : seg ≠ "Declining") :
    (synthRecord i seg today r f).1.decline_type = none := by
  simp [synthRecord, h]

theorem synthRecord_props (i : ℕ) (seg : String) (today : ℤ) (r : RState)
    (f : FState) : RecordProps i seg (synthRecord i seg today r f).1 := by
  obtain ⟨s, hcred⟩ := synthRecord_credit i seg today r f
  have hk := randint_bounds 0 46 s (by norm_num)
  have hage := randint_bounds MIN_AGE (MAX_AGE + 1) r (by decide)
  have hage' : (synthRecord i seg today r f).1.age =
      (randint MIN_AGE (MAX_AGE + 1) r).1 := rfl
  refine ⟨rfl, rfl, ?_, ?_, ?_, ?_, ?_, ?_, ?_, ?_⟩
  · rw [hage']
    exact hage.1
  · rw [hage']
    have := hage.2
    omega
  · rw [hcred]
    simp only [MIN_CREDIT_LIMIT, CREDIT_LIMIT_STEP]
    omega
  · rw [hcred]
    simp only [MIN_CREDIT_LIMIT, MAX_CREDIT_LIMIT, CREDIT_LIMIT_STEP]
    omega
  · rw [hcred]
    simp only [MIN_CREDIT_LIMIT, CREDIT_LIMIT_STEP]
    omega
  · exact ⟨(randint 0 46 s).1, hk.1, hk.2, hcred⟩
  · by_cases h : seg = "Declining"
    · obtain ⟨x, hd⟩ := synthRecord_decline_pos i seg today r f h
      rw [hd]
      simp [h]
    · rw [synthRecord_decline_neg i seg today r f h]
      simp [h]
  · intro d hd
    by_cases h : seg = "Declining"
    · obtain ⟨x, hx⟩ := synthRecord_decline_pos i seg today r f h
      rw [hx] at hd
      have : d = if x < GRADUAL_DECLINE_PERCENTAGE then "gradual" else "sudden" := by
        injection hd.symm
      subst this
      split <;> simp [DECLINE_TYPES]
    · rw [synthRecord_decline_neg i seg today r f h] at hd
      cases hd

/-! ## Lemmas: the synthesis loop -/

theorem synthAll_spec (shuffled : List String) (today : ℤ) :
    ∀ (k i : ℕ) (r : RState) (f : FState), i + k ≤ shuffled.length →
      ∃ rows, synthAll shuffled today i k r f = some rows ∧
        rows.length = k ∧
        ∀ j, j < k → ∃ c seg, rows[j]? = some c ∧
          shuffled[i + j]? = some seg ∧ RecordProps (i + j) seg c := by
  intro k
  induction k with
  | zero =>
    intro i r f _
    exact ⟨[], rfl, rfl, fun j hj => absurd hj (by omega)⟩
  | succ m ih =>
    intro i r f hik
    have hi : i < shuffled.length := by omega
    have hseg : shuffled[i]? = some shuffled[i] := List.getElem?_eq_getElem hi
    obtain ⟨rows', h1, h2, h3⟩ := ih (i + 1)
      (synthRecord i shuffled[i] today r f).2.1
      (synthRecord i shuffled[i] today r f).2.2 (by omega)
    refine ⟨(synthRecord i shuffled[i] today r f).1 :: rows', ?_, by simp [h2], ?_⟩
    · simp only [synthAll, hseg, h1, Option.map_some']
    · intro j hj
      cases j with
      | zero =>
        refine ⟨(synthRecord i shuffled[i] today r f).1, shuffled[i], by simp,
          by simp only [Nat.add_zero]; exact hseg, ?_⟩
        simpa using synthRecord_props i shuffled[i] today r f
      | succ j' =>
        obtain ⟨c, seg, hc, hs, hp⟩ := h3 j' (by omega)
        have hidx : i + (j' + 1) = (i + 1) + j' := by omega
        refine ⟨c, seg, by simpa using hc, ?_, ?_⟩
        · rw [hidx]
          exact hs
        · rw [hidx]
          exact hp

theorem shuffledOf_length (n : ℤ) (seed : ℕ) (hn : 0 ≤ n) :
    (shuffledOf n seed).length = n.toNat := by
  simp only [shuffledOf, npshuffle, List.length_rotate]
  exact segmentAssignments_length n hn

theorem shuffledOf_perm (n : ℤ) (seed : ℕ) :
    (shuffledOf n seed).Perm (segmentAssignments n) := by
  simp only [shuffledOf, npshuffle]
  exact List.rotate_perm _ _

/-- Full characterisation of a successful run of `generate_customers` for a
non-negative population size: it succeeds, produces exactly `n` rows, row `j`
carries the `j`-th shuffled segment label and all the loop-body invariants,
and the row-wise segment labels are exactly the shuffled assignment list. -/
theorem customersList_spec (n : ℤ) (seed : ℕ) (today : ℤ) (hn : 0 ≤ n) :
    ∃ rows, customersList n seed today = some rows ∧
      rows.length = n.toNat ∧
      (∀ j, j < n.toNat → ∃ c seg, rows[j]? = some c ∧
        (shuffledOf n seed)[j]? = some seg ∧ RecordProps j seg c) ∧
      rows.map (·.customer_segment) = shuffledOf n seed := by
  have hlen := shuffledOf_length n seed hn
  obtain ⟨rows, h1, h2, h3⟩ := synthAll_spec (shuffledOf n seed) today n.toNat 0
    (npshuffle (segmentAssignments n) (npSeed seed)).2 (fakerSeed seed)
    (by omega)
  have h3' : ∀ j, j < n.toNat → ∃ c seg, rows[j]? = some c ∧
      (shuffledOf n seed)[j]? = some seg ∧ RecordProps j seg c := by
    intro j hj
    obtain ⟨c, seg, hc, hs, hp⟩ := h3 j hj
    exact ⟨c, seg, hc, by simpa using hs, by simpa using hp⟩
  refine ⟨rows, h1, h2, h3', ?_⟩
  apply List.ext_getElem?
  intro j
  by_cases hj : j < n.toNat
  · obtain ⟨c, seg, hc, hs, hp⟩ := h3' j hj
    rw [List.getElem?_map, hc, hs]
    simp [hp.2.1]
  · rw [List.getElem?_eq_none (by simp [h2]; omega),
      List.getElem?_eq_none (by omega)]

/-- Every produced record is a loop-body output for its position. -/
theorem customersList_mem (n : ℤ) (seed : ℕ) (today : ℤ)
    (rows : List CustomerRecord) (h : customersList n seed today = some rows)
    (c : CustomerRecord) (hc : c ∈ rows) :
    ∃ j seg, RecordProps j seg c := by
  by_cases hn : 0 ≤ n
  · obtain ⟨rows', h1, h2, h3, h4⟩ := customersList_spec n seed today hn
    rw [h1] at h
    injection h with h
    subst h
    obtain ⟨j, hj⟩ := List.mem_iff_getElem?.mp hc
    have hjlt : j < n.toNat := by
      obtain ⟨hlt, -⟩ := List.getElem?_eq_some.mp hj
      omega
    obtain ⟨c', seg, hc', hs, hp⟩ := h3 j hjlt
    rw [hj] at hc'
    injection hc' with hc'
    subst hc'
    exact ⟨j, seg, hp⟩
  · rw [customersList_nonpos n (by omega) seed today] at h
    injection h with h
    subst h
    cases hc

/-! ## Lemmas: the generation date only reaches `account_open_date` -/

theorem synthRecord_state_today (i : ℕ) (seg : String) (t₁ t₂ : ℤ) (r : RState)
    (f : FState) : (synthRecord i seg t₁ r f).2 = (synthRecord i seg t₂ r f).2 :=
  rfl

theorem synthRecord_eraseDate (i : ℕ) (seg : String) (t₁ t₂ : ℤ) (r : RState)
    (f : FState) :
    eraseDate (synthRecord i seg t₁ r f).1 = eraseDate (synthRecord i seg t₂ r f).1 :=
  rfl

theorem synthAll_eraseDate (shuffled : List String) (t₁ t₂ : ℤ) :
    ∀ (k i : ℕ) (r : RState) (f : FState),
      (synthAll shuffled t₁ i k r f).map (List.map eraseDate) =
        (synthAll shuffled t₂ i k r f).map (List.map eraseDate)
  | 0, _, _, _ => rfl
  | k + 1, i, r, f => by
    cases hseg : shuffled[i]? with
    | none => simp [synthAll, hseg]
    | some seg =>
      have ih := synthAll_eraseDate shuffled t₁ t₂ k (i + 1)
        (synthRecord i seg t₂ r f).2.1 (synthRecord i seg t₂ r f).2.2
      have hed : eraseDate (synthRecord i seg t₁ r f).1 =
          eraseDate (synthRecord i seg t₂ r f).1 := rfl
      simp only [synthAll, hseg]
      show (Option.map ((synthRecord i seg t₁ r f).1 :: ·)
          (synthAll shuffled t₁ (i + 1) k (synthRecord i seg t₂ r f).2.1
            (synthRecord i seg t₂ r f).2.2)).map (List.map eraseDate) = _
      cases hA : synthAll shuffled t₁ (i + 1) k (synthRecord i seg t₂ r f).2.1
          (synthRecord i seg t₂ r f).2.2 with
      | none =>
        rw [hA] at ih
        cases hB : synthAll shuffled t₂ (i + 1) k (synthRecord i seg t₂ r f).2.1
            (synthRecord i seg t₂ r f).2.2 with
        | none => simp
        | some lB =>
          rw [hB] at ih
          simp at ih
      | some lA =>
        rw [hA] at ih
        cases hB : synthAll shuffled t₂ (i + 1) k (synthRecord i seg t₂ r f).2.1
            (synthRecord i seg t₂ r f).2.2 with
        | none =>
          rw [hB] at ih
          simp at ih
        | some lB =>
          rw [hB] at ih
          simp only [Option.map_some', Option.some.injEq] at ih ⊢
          simp only [List.map_cons, hed, ih]

theorem customersList_eraseDate (n : ℤ) (seed : ℕ) (t₁ t₂ : ℤ) :
    (customersList n seed t₁).map (List.map eraseDate) =
      (customersList n seed t₂).map (List.map eraseDate) :=
  synthAll_eraseDate (shuffledOf n seed) t₁ t₂ n.toNat 0
    (npshuffle (segmentAssignments n) (npSeed seed)).2 (fakerSeed seed)

/-! ## Lemmas: segment label counts -/

theorem count_flatten_replicate (s : String) :
    ∀ (l : List (String × ℤ)), s ∉ l.map Prod.fst →
      ((l.map (fun q => List.replicate q.2.toNat q.1)).flatten).count s = 0
  | [], _ => rfl
  | q :: t, h => by
    simp only [List.map_cons, List.mem_cons, not_or] at h
    have ih := count_flatten_replicate s t h.2
    simp only [List.map_cons, List.flatten_cons, List.count_append, ih,
      List.count_replicate]
    simp [Ne.symm h.1]

theorem count_assignments :
    ∀ (l : List (String × ℤ)), (l.map Prod.fst).Nodup → ∀ p ∈ l,
      ((l.map (fun q => List.replicate q.2.toNat q.1)).flatten).count p.1 = p.2.toNat
  | [], _, p, hp => absurd hp (List.not_mem_nil p)
  | q :: t, hnd, p, hp => by
    simp only [List.map_cons, List.nodup_cons] at hnd
    rcases List.mem_cons.mp hp with rfl | hpt
    · simp only [List.map_cons, List.flatten_cons, List.count_append,
        List.count_replicate_self, count_flatten_replicate p.1 t hnd.1]
      omega
    · have hne : q.1 ≠ p.1 := by
        intro he
        exact hnd.1 (he ▸ List.mem_map_of_mem Prod.fst hpt)
      have ih := count_assignments t hnd.2 p hpt
      simp only [List.map_cons, List.flatten_cons, List.count_append, ih,
        List.count_replicate]
      simp [hne]

theorem SEGMENTS_names_nodup : ((SEGMENTS).map Prod.fst).Nodup := by
  decide

theorem segmentAssignments_count (n : ℤ) :
    ∀ p ∈ allocate n SEGMENTS, (segmentAssignments n).count p.1 = p.2.toNat := by
  intro p hp
  have hnames : ((allocate n SEGMENTS).map Prod.fst).Nodup := by
    unfold allocate
    rw [allocateAux_names]
    exact SEGMENTS_names_nodup
  exact count_assignments _ hnames p hp

/-! ## Claim theorems -/

/-- C1: for every `n ≥ 0` and every non-negative weight mapping, the segment
allocation gives every non-last segment `count = floor(n * weight)`, gives
the last segment `n` minus the running total, so that the counts sum to `n`
exactly; in the all-zero-weight case the last segment receives all of `n`. -/
theorem claim_C1 (n : ℤ) (ws : List (String × ℚ)) (hn : 0 ≤ n) (hne : ws ≠ [])
    (hw : ∀ p ∈ ws, 0 ≤ p.2) :
    ((allocate n ws).map Prod.snd).sum = n ∧
    (∀ i p, i + 1 < ws.length → ws[i]? = some p →
      (allocate n ws)[i]? = some (p.1, ⌊(n : ℚ) * p.2⌋)) ∧
    ((∀ p ∈ ws, p.2 = 0) →
      ((allocate n ws).map Prod.snd).getLast? = some n) := by
  refine ⟨allocate_sum n ws hne, ?_, ?_⟩
  · intro i p hi hp
    have hget := allocateAux_get n ws 0 i p hi hp
    have hq : (0 : ℚ) ≤ (n : ℚ) := by exact_mod_cast hn
    have hpw : 0 ≤ p.2 := hw p (List.getElem?_mem hp)
    rw [pyInt_of_nonneg (mul_nonneg hq hpw)] at hget
    exact hget
  · intro hz
    have hlast := allocateAux_zero_last n ws 0 hne hz
    simpa using hlast

/-- C3 counterexample: at the concrete non-positive population size `-5`
(and any seed/date), `generate_customers` does not raise anything — there is
no validation of `n` in the source — and instead returns normally with an
empty table. -/
theorem claim_C3_counterexample :
    customersList (-5) 42 0 = some [] ∧
    generate_customers (-5) 42 0 = some ⟨[], []⟩ := by
  constructor <;> rfl

/-- C3 (amended): for every non-positive `n`, `generate_customers(n, seed)`
raises nothing; each non-last allocation is non-positive, the assignment
list is empty, the loop runs zero times and an empty table (no rows, hence
no columns) is returned.  Nothing partial is produced, but there is no
fail-fast either. -/
theorem claim_C3 (n : ℤ) (hn : n ≤ 0) (seed : ℕ) (today : ℤ) :
    customersList n seed today = some [] ∧
    generate_customers n seed today = some ⟨[], []⟩ := by
  have h := customersList_nonpos n hn seed today
  exact ⟨h, by simp [generate_customers, h, DF.ofRecords]⟩

theorem claim_C3_witness :
    (-7 : ℤ) ≤ 0 ∧
    (customersList (-7) 42 0 = some [] ∧
     generate_customers (-7) 42 0 = some ⟨[], []⟩) :=
  ⟨by decide, claim_C3 (-7) (by decide) 42 0⟩

/-- C7: the claim says the validator never raises for malformed rows, but on
a table that has all thirteen columns and a single row whose `customer_id`
is null (all other fields valid), `validate_customer_data` raises: the
`str.match` mask contains `NaN` for the null entry and inverting it with `~`
is a `TypeError`, so the null-value error recorded earlier is never
returned.  This theorem evaluates the model at that failing input. -/
theorem claim_C7 :
    validate_customer_data ⟨allColumns,
      [⟨none, some "Ann", some "Lee", some "ann.lee@example.com", some 30,
        some "CA", some "Springfield", some "Employed", some "Standard",
        some 5000, some 0, some "Stable Mid-Spenders", none⟩]⟩ =
      Except.error "TypeError: bad operand type for unary ~" := by
  rfl

/-- C10: for `n = 0` and any seed, `generate_customers` returns a zero-row
DataFrame built from an empty record list, which has no column labels at
all, and `validate_customer_data` applied to it raises `KeyError` on the
first required-field lookup (`customer_id`) instead of returning a report. -/
theorem claim_C10 (seed : ℕ) (today : ℤ) :
    generate_customers 0 seed today = some ⟨[], []⟩ ∧
    validate_customer_data ⟨[], []⟩ =
      Except.error "KeyError: customer_id" := by
  constructor
  · have h := customersList_nonpos 0 le_rfl seed today
    simp [generate_customers, h, DF.ofRecords]
  · rfl

set_option maxRecDepth 8000 in
/-- C2 counterexample: `generate_customers` reads the wall clock
(`datetime.now()`), so two independent calls with the same `(n, seed)` that
observe different current dates return different tables — the
`account_open_date` column shifts with the clock while every other field
agrees.  Here: `n = 1`, `seed = 42`, current day numbers `0` and `365`. -/
theorem claim_C2_counterexample :
    (customersList 1 42 0).map (List.map (·.account_open_date)) =
      some [(-1642 : ℤ)] ∧
    (customersList 1 42 365).map (List.map (·.account_open_date)) =
      some [(-1277 : ℤ)] ∧
    customersList 1 42 0 ≠ customersList 1 42 365 ∧
    (customersList 1 42 0).map (List.map eraseDate) =
      (customersList 1 42 365).map (List.map eraseDate) := by
  have h1 : (customersList 1 42 0).map (List.map (·.account_open_date)) =
      some [(-1642 : ℤ)] := by with_unfolding_all rfl
  have h2 : (customersList 1 42 365).map (List.map (·.account_open_date)) =
      some [(-1277 : ℤ)] := by with_unfolding_all rfl
  refine ⟨h1, h2, ?_, customersList_eraseDate 1 42 0 365⟩
  intro h
  rw [h, h2] at h1
  exact absurd h1 (by decide)

/-- C2 (amended): two independent calls to `generate_customers(n, seed)`
produce tables identical in every field except `account_open_date`; they are
byte-identical exactly when both calls observe the same current date (the
seeded streams determine everything else). -/
theorem claim_C2 (n : ℤ) (seed : ℕ) (t₁ t₂ : ℤ) :
    (customersList n seed t₁).map (List.map eraseDate) =
      (customersList n seed t₂).map (List.map eraseDate) :=
  customersList_eraseDate n seed t₁ t₂

/-- C4: in every table produced by `generate_customers`, `decline_type` is
non-null iff the record's segment is `"Declining"`; when set it is one of
the two configured decline labels, and for any other segment it is the
explicit absent marker (`none`), never an empty string. -/
theorem claim_C4 (n : ℤ) (seed : ℕ) (today : ℤ) (rows : List CustomerRecord)
    (h : customersList n seed today = some rows) (c : CustomerRecord)
    (hc : c ∈ rows) :
    (c.decline_type ≠ none ↔ c.customer_segment = "Declining") ∧
    (∀ d, c.decline_type = some d → d ∈ DECLINE_TYPES) ∧
    (c.customer_segment ≠ "Declining" → c.decline_type = none) := by
  obtain ⟨j, seg, hp⟩ := customersList_mem n seed today rows h c hc
  obtain ⟨-, hseg, -, -, -, -, -, -, hiff, hvals⟩ := hp
  rw [hseg]
  refine ⟨hiff, hvals, ?_⟩
  intro hne
  by_contra hd
  exact hne (hiff.mp hd)

/-- C6: every produced record has `credit_limit` in
`[MIN_CREDIT_LIMIT, MAX_CREDIT_LIMIT]`, an exact multiple of
`CREDIT_LIMIT_STEP`, `age` in `[MIN_AGE, MAX_AGE]`, and the credit limit is
one of the exactly 46 valid step values. -/
theorem claim_C6 (n : ℤ) (seed : ℕ) (today : ℤ) (rows : List CustomerRecord)
    (h : customersList n seed today = some rows) (c : CustomerRecord)
    (hc : c ∈ rows) :
    MIN_CREDIT_LIMIT ≤ c.credit_limit ∧ c.credit_limit ≤ MAX_CREDIT_LIMIT ∧
    c.credit_limit % CREDIT_LIMIT_STEP = 0 ∧
    MIN_AGE ≤ c.age ∧ c.age ≤ MAX_AGE ∧
    c.credit_limit ∈ stepValues ∧ stepValues.length = 46 := by
  obtain ⟨j, seg, hp⟩ := customersList_mem n seed today rows h c hc
  obtain ⟨-, -, a1, a2, b1, b2, b3, ⟨k, hk0, hk46, hkeq⟩, -, -⟩ := hp
  refine ⟨b1, b2, b3, a1, a2, ?_, by decide⟩
  rw [hkeq]
  interval_cases k <;> decide

/-- C9: for every `n ≥ 0` and seed, the generated table has length exactly
`n`, its segment-label sequence is a permutation of the pre-shuffle
assignment list (the single shuffle only permutes positions), and each
segment label appears precisely its allocated count of times. -/
theorem claim_C9 (n : ℤ) (seed : ℕ) (today : ℤ) (hn : 0 ≤ n) :
    ∃ rows, customersList n seed today = some rows ∧
      (rows.length : ℤ) = n ∧
      (rows.map (·.customer_segment)).Perm (segmentAssignments n) ∧
      (∀ p ∈ allocate n SEGMENTS,
        (rows.map (·.customer_segment)).count p.1 = p.2.toNat) := by
  obtain ⟨rows, h1, h2, h3, h4⟩ := customersList_spec n seed today hn
  refine ⟨rows, h1, ?_, ?_, ?_⟩
  · rw [h2]
    exact Int.toNat_of_nonneg hn
  · rw [h4]
    exact shuffledOf_perm n seed
  · intro p hp
    rw [h4, (shuffledOf_perm n seed).count_eq]
    exact segmentAssignments_count n p hp

/-- C5 counterexample: identifiers are `str(position).zfill(8)` with the
`CUST` prefix, and `zfill` does not truncate — at `n = 10^8` the last
record's identifier has nine digits, so it does not match the claimed
`CUST` + exactly-eight-digits format (the validator's own
`^CUST\d{8}$` pattern, `idFormatOk`). -/
theorem claim_C5_counterexample :
    ∃ rows c, customersList 100000000 42 0 = some rows ∧ c ∈ rows ∧
      idFormatOk c.customer_id = false := by
  obtain ⟨rows, h1, h2, h3, -⟩ := customersList_spec 100000000 42 0 (by norm_num)
  have ht : (100000000 : ℤ).toNat = 100000000 := by decide
  obtain ⟨c, seg, hc, -, hp⟩ := h3 99999999 (by rw [ht]; norm_num)
  refine ⟨rows, c, h1, List.getElem?_mem hc, ?_⟩
  rw [hp.1]
  exact idFormatOk_custId_big

/-- C5 (amended): in every table produced by `generate_customers` with
`n ≥ 0`, the identifier of the row at 0-based position `j` is exactly
`custId (j+1)` — `CUST` followed by `str(j+1).zfill(8)` — derived purely
from the final position and independent of the segment shuffle; the
identifiers are pairwise distinct and form the contiguous sequence `1..n`;
and whenever `n ≤ 99999999` every identifier matches the fixed
`CUST` + eight-digit format. -/
theorem claim_C5 (n : ℤ) (seed : ℕ) (today : ℤ) (hn : 0 ≤ n) :
    ∃ rows, customersList n seed today = some rows ∧
      rows.length = n.toNat ∧
      (∀ j, j < n.toNat → ∃ c, rows[j]? = some c ∧
        c.customer_id = custId (j + 1)) ∧
      (rows.map (·.customer_id)).Nodup ∧
      (n ≤ 99999999 → ∀ c ∈ rows, idFormatOk c.customer_id = true) := by
  obtain ⟨rows, h1, h2, h3, -⟩ := customersList_spec n seed today hn
  have hpos : ∀ j, j < n.toNat → ∃ c, rows[j]? = some c ∧
      c.customer_id = custId (j + 1) := by
    intro j hj
    obtain ⟨c, seg, hc, -, hp⟩ := h3 j hj
    exact ⟨c, hc, hp.1⟩
  refine ⟨rows, h1, h2, hpos, ?_, ?_⟩
  · have hmap : rows.map (·.customer_id) =
        (List.range n.toNat).map (fun j => custId (j + 1)) := by
      apply List.ext_getElem?
      intro j
      by_cases hj : j < n.toNat
      · obtain ⟨c, hc, hid⟩ := hpos j hj
        rw [List.getElem?_map, hc, List.getElem?_map, List.getElem?_range hj]
        simp [hid]
      · have e1 : (rows.map (·.customer_id)).length ≤ j := by
          simp only [List.length_map, h2]
          omega
        have e2 : ((List.range n.toNat).map (fun j => custId (j + 1))).length ≤ j := by
          simp only [List.length_map, List.length_range]
          omega
        rw [List.getElem?_eq_none e1, List.getElem?_eq_none e2]
    rw [hmap]
    refine List.Nodup.map ?_ (List.nodup_range n.toNat)
    intro a b hab
    have := custId_inj hab
    omega
  · intro hbound c hcmem
    obtain ⟨j, hj⟩ := List.mem_iff_getElem?.mp hcmem
    have hjlt : j < n.toNat := by
      obtain ⟨hlt, -⟩ := List.getElem?_eq_some.mp hj
      omega
    obtain ⟨c', hc', hid⟩ := hpos j hjlt
    rw [hj] at hc'
    injection hc' with hc'
    subst hc'
    rw [hid]
    apply idFormatOk_custId
    omega

/-- No segment-deviation finding is ever placed in the error list: the
distribution check only appends warnings. -/
theorem errorsOf_no_deviation (rows : List Row) (s : String) (a e : ℚ) :
    VIssue.segmentDeviation s a e ∉ errorsOf rows := by
  intro hmem
  unfold errorsOf at hmem
  simp only [List.mem_append] at hmem
  rcases hmem with ((((((h | h) | h) | h) | h) | h) | h)
  · obtain ⟨fld, -, hg⟩ := List.mem_filterMap.mp h
    dsimp only at hg
    split at hg <;> simp_all
  · unfold dupErrorsOf at h
    dsimp only at h
    split at h <;> simp_all
  · unfold formatErrorsOf at h
    dsimp only at h
    split at h <;> simp_all
  · unfold emailErrorsOf at h
    dsimp only at h
    split at h <;> simp_all
  · unfold creditErrorsOf at h
    dsimp only at h
    split at h <;> simp_all
  · unfold declNullErrorsOf at h
    dsimp only at h
    split at h <;> simp_all
  · unfold declSetErrorsOf at h
    dsimp only at h
    split at h <;> simp_all

/-- C8: for every input table (with non-null identifiers, so that the
validator returns at all) and every configured segment, a deviation warning
carrying that segment's name, its empirical share and its target weight is
emitted exactly when `|empirical - target| > 0.05`; such findings are never
errors, and validity is exactly emptiness of the error list. -/
theorem claim_C8 (rows : List Row)
    (hid : (rows.map (·.customer_id)).any Option.isNone = false)
    (s : String) (w : ℚ) (hsw : (s, w) ∈ SEGMENTS) :
    ∃ rep, validateRows rows = Except.ok rep ∧
      (VIssue.segmentDeviation s (empiricalShare rows s) w ∈ rep.warnings ↔
        |empiricalShare rows s - w| > 5/100) ∧
      (∀ s' a e, VIssue.segmentDeviation s' a e ∉ rep.errors) ∧
      (rep.is_valid = true ↔ rep.errors = []) := by
  have hok : validateRows rows = Except.ok
      { is_valid := (errorsOf rows).isEmpty
        errors := errorsOf rows
        warnings := warningsOf rows
        statistics := statsOf rows } := by
    unfold validateRows
    rw [if_neg (by simp [hid])]
  refine ⟨_, hok, ?_, ?_, ?_⟩
  · constructor
    · intro hmem
      simp only [warningsOf] at hmem
      obtain ⟨p, hpmem, hpg⟩ := List.mem_filterMap.mp hmem
      split at hpg
      · next hcond =>
        obtain ⟨he1, -, he3⟩ := VIssue.segmentDeviation.inj
          (Option.some.inj hpg)
        rw [← he1, ← he3]
        exact hcond
      · cases hpg
    · intro hgt
      simp only [warningsOf]
      apply List.mem_filterMap.mpr
      exact ⟨(s, w), hsw, by rw [if_pos hgt]⟩
  · intro s' a e
    exact errorsOf_no_deviation rows s' a e
  · simp [List.isEmpty_iff]

/-! ## Witnesses -/

theorem getD_mem {α : Type} {l : List α} {i : ℕ} {d : α} (h : i < l.length) :
    l.getD i d ∈ l := by
  rw [List.getD_eq_getElem?_getD, List.getElem?_eq_getElem h]
  exact List.getElem_mem h

theorem claim_C1_witness :
    (0 : ℤ) ≤ 7 ∧ SEGMENTS ≠ [] ∧ (∀ p ∈ SEGMENTS, 0 ≤ p.2) ∧
    (((allocate 7 SEGMENTS).map Prod.snd).sum = 7 ∧
     (∀ i p, i + 1 < SEGMENTS.length → SEGMENTS[i]? = some p →
       (allocate 7 SEGMENTS)[i]? = some (p.1, ⌊((7 : ℤ) : ℚ) * p.2⌋)) ∧
     ((∀ p ∈ SEGMENTS, p.2 = 0) →
       ((allocate 7 SEGMENTS).map Prod.snd).getLast? = some 7)) :=
  ⟨by decide, by decide, by with_unfolding_all decide,
   claim_C1 7 SEGMENTS (by decide) (by decide) (by with_unfolding_all decide)⟩

set_option maxRecDepth 8000 in
theorem claim_C4_witness :
    customersList 1 42 0 = some ((customersList 1 42 0).getD []) ∧
    ((customersList 1 42 0).getD []).getD 0 dRec ∈ (customersList 1 42 0).getD [] ∧
    (((((customersList 1 42 0).getD []).getD 0 dRec).decline_type ≠ none ↔
        (((customersList 1 42 0).getD []).getD 0 dRec).customer_segment =
          "Declining") ∧
     (∀ d, (((customersList 1 42 0).getD []).getD 0 dRec).decline_type = some d →
        d ∈ DECLINE_TYPES) ∧
     ((((customersList 1 42 0).getD []).getD 0 dRec).customer_segment ≠
        "Declining" →
      (((customersList 1 42 0).getD []).getD 0 dRec).decline_type = none)) := by
  have hlen : ((customersList 1 42 0).getD []).length = 1 := by
    with_unfolding_all rfl
  have h1 : customersList 1 42 0 = some ((customersList 1 42 0).getD []) := by
    with_unfolding_all rfl
  have h2 : ((customersList 1 42 0).getD []).getD 0 dRec ∈
      (customersList 1 42 0).getD [] := getD_mem (by omega)
  exact ⟨h1, h2, claim_C4 1 42 0 _ h1 _ h2⟩

theorem claim_C5_witness :
    (0 : ℤ) ≤ 2 ∧
    (∃ rows, customersList 2 42 0 = some rows ∧
      rows.length = (2 : ℤ).toNat ∧
      (∀ j, j < (2 : ℤ).toNat → ∃ c, rows[j]? = some c ∧
        c.customer_id = custId (j + 1)) ∧
      (rows.map (·.customer_id)).Nodup ∧
      ((2 : ℤ) ≤ 99999999 → ∀ c ∈ rows, idFormatOk c.customer_id = true)) :=
  ⟨by decide, claim_C5 2 42 0 (by decide)⟩

set_option maxRecDepth 8000 in
theorem claim_C6_witness :
    customersList 3 42 0 = some ((customersList 3 42 0).getD []) ∧
    ((customersList 3 42 0).getD []).getD 0 dRec ∈ (customersList 3 42 0).getD [] ∧
    (MIN_CREDIT_LIMIT ≤ (((customersList 3 42 0).getD []).getD 0 dRec).credit_limit ∧
     (((customersList 3 42 0).getD []).getD 0 dRec).credit_limit ≤ MAX_CREDIT_LIMIT ∧
     (((customersList 3 42 0).getD []).getD 0 dRec).credit_limit %
       CREDIT_LIMIT_STEP = 0 ∧
     MIN_AGE ≤ (((customersList 3 42 0).getD []).getD 0 dRec).age ∧
     (((customersList 3 42 0).getD []).getD 0 dRec).age ≤ MAX_AGE ∧
     (((customersList 3 42 0).getD []).getD 0 dRec).credit_limit ∈ stepValues ∧
     stepValues.length = 46) := by
  have hlen : ((customersList 3 42 0).getD []).length = 3 := by
    with_unfolding_all rfl
  have h1 : customersList 3 42 0 = some ((customersList 3 42 0).getD []) := by
    with_unfolding_all rfl
  have h2 : ((customersList 3 42 0).getD []).getD 0 dRec ∈
      (customersList 3 42 0).getD [] := getD_mem (by omega)
  exact ⟨h1, h2, claim_C6 3 42 0 _ h1 _ h2⟩

theorem claim_C8_witness :
    (([] : List Row).map (·.customer_id)).any Option.isNone = false ∧
    ("Declining", (10/100 : ℚ)) ∈ SEGMENTS ∧
    (∃ rep, validateRows [] = Except.ok rep ∧
      (VIssue.segmentDeviation "Declining" (empiricalShare [] "Declining")
          (10/100) ∈ rep.warnings ↔
        |empiricalShare [] "Declining" - 10/100| > 5/100) ∧
      (∀ s' a e, VIssue.segmentDeviation s' a e ∉ rep.errors) ∧
      (rep.is_valid = true ↔ rep.errors = [])) :=
  ⟨rfl, by with_unfolding_all decide,
   claim_C8 [] rfl "Declining" (10/100) (by with_unfolding_all decide)⟩

theorem claim_C9_witness :
    (0 : ℤ) ≤ 10 ∧
    (∃ rows, customersList 10 42 0 = some rows ∧
      (rows.length : ℤ) = 10 ∧
      (rows.map (·.customer_segment)).Perm (segmentAssignments 10) ∧
      (∀ p ∈ allocate 10 SEGMENTS,
        (rows.map (·.customer_segment)).count p.1 = p.2.toNat)) :=
  ⟨by decide, claim_C9 10 42 0 (by decide)⟩

end Customer360
